import Mathlib

/-!
Shallow embedding of `netdisco/discovery.py` (class `NetworkDiscovery`):
the discovery coordinator, its lifecycle state machine, and the plugin
registry loader `_load_device_support`.

The two scan backends (`netdisco.mdns.MDNS`, `netdisco.ssdp.SSDP`) and the
per-type checkers (`module.Discoverable`) are external collaborators that are
not part of the coordinator source; they are modelled from the spec's
interface contracts as counting stubs / result records, which is exactly how
the spec's own testable properties quantify over them.
-/

set_option autoImplicit false

namespace Netdisco

/-- Python exceptions that the coordinator's operations can surface:
`RuntimeError` (raised by `_check_enabled`), `KeyError` (raised by a dict
lookup `self.discoverables[dis]` on a missing key), and a transport error
raised out of the foreground adapter's `scan()` round-trip. -/
inductive PyError where
  | runtimeError (msg : String)
  | keyError (key : String)
  | ssdpTransportError
  deriving DecidableEq, Repr

/-- Modelled from the spec: the background scanner adapter (`netdisco.mdns.MDNS`,
not under the coordinator source). Only the invocation counts of its
`start()` / `stop()` operations are modelled — the spec's testable properties
quantify over exactly such a counting stub adapter. -/
structure MDNS where
  startCount : Nat
  stopCount : Nat
  deriving DecidableEq, Repr

def MDNS.start (m : MDNS) : MDNS :=
  { m with startCount := m.startCount + 1 }

def MDNS.stop (m : MDNS) : MDNS :=
  { m with stopCount := m.stopCount + 1 }

/-- Modelled from the spec: the foreground scanner adapter (`netdisco.ssdp.SSDP`,
not under the coordinator source), as a stub counting `scan()` invocations. -/
structure SSDP where
  scanCount : Nat
  deriving DecidableEq, Repr

def SSDP.scan (s : SSDP) : SSDP :=
  { s with scanCount := s.scanCount + 1 }

/-- Modelled from the spec: a per-type checker (`module.Discoverable(self)`, an
external plugin). A checker is modelled by the current results of its three
capabilities `is_discovered() / get_info() / get_entries()`; the raw records
are opaque to the coordinator and modelled as strings. -/
structure Checker where
  is_discovered : Bool
  get_info : List String
  get_entries : List String
  deriving DecidableEq, Repr

/-- State of a `NetworkDiscovery` coordinator object: the two adapter stubs,
the plugin registry `self.discoverables` (a Python dict, modelled as an
insertion-ordered association list), the `limit_discovery` filter and the
`is_discovering` flag. -/
structure NetworkDiscovery where
  mdns : MDNS
  ssdp : SSDP
  discoverables : List (String × Checker)
  limit_discovery : Option (List String)
  is_discovering : Bool
  deriving DecidableEq, Repr

/-- Python `s.rsplit('.', 1)` restricted to what the loader needs: split the
character list at its last `'.'`. Returns `none` when no dot occurs, else
`some (before, after)`. -/
def rsplitDotAux : List Char → Option (List Char × List Char)
  | [] => none
  | c :: cs =>
    match rsplitDotAux cs with
    | some (p, q) => some (c :: p, q)
    | none => if c = '.' then some ([], cs) else none

/-- Python `pkg.rsplit('.', 1)`: `[pkg]` when `pkg` has no dot, otherwise the
two pieces around the last dot. -/
def rsplit1 (pkg : String) : List String :=
  match rsplitDotAux pkg.data with
  | none => [pkg]
  | some (p, q) => [String.mk p, String.mk q]

/-- Python `s.endswith(suff)`. -/
def strEndsWith (s suff : String) : Bool :=
  s.data.reverse.take suff.data.length == suff.data.reverse

/-- Python dict assignment `d[k] = v`: an existing key keeps its position and
gets the new value; a fresh key is appended in insertion order. -/
def dictInsert (d : List (String × Checker)) (k : String) (v : Checker) :
    List (String × Checker) :=
  if d.any (fun p => p.1 == k) then
    d.map (fun p => if p.1 == k then (k, v) else p)
  else
    d ++ [(k, v)]

/-- `NetworkDiscovery._load_device_support`, with the package walk
(`pkgutil.walk_packages`) abstracted as the list `pkgs` of candidate module
names it yields, and the plugin import (`importlib.import_module(pkg)` plus
`module.Discoverable(self)`) abstracted as the external factory `mk`.
For each candidate: split at the last dot, skip it unless the part before
the dot ends with `"netdisco.discoverables"`, skip it when a limit set is
supplied and the full candidate name is not in it, else store the checker
under the part after the last dot.

`loadStep` is the body of the loader's `for` loop, processing one candidate
against the accumulated registry. -/
def loadStep (limit : Option (List String)) (mk : String → Checker)
    (d : List (String × Checker)) (pkg : String) : List (String × Checker) :=
  let parts := rsplit1 pkg
  if ¬ strEndsWith (parts.headD "") "netdisco.discoverables" then d
  else
    match limit with
    | some l => if l.contains pkg then dictInsert d (parts.getLastD "") (mk pkg) else d
    | none => dictInsert d (parts.getLastD "") (mk pkg)

/-- The loader itself: fold `loadStep` over the candidates the walk yields,
starting from the freshly reset empty registry. -/
def load_device_support (limit : Option (List String)) (pkgs : List String)
    (mk : String → Checker) : List (String × Checker) :=
  pkgs.foldl (loadStep limit mk) []

/-- `NetworkDiscovery.__init__(limit_discovery)`: fresh adapters, the registry
populated by `_load_device_support`, and `is_discovering = False`. -/
def NetworkDiscovery.init (limit : Option (List String)) (pkgs : List String)
    (mk : String → Checker) : NetworkDiscovery :=
  { mdns := ⟨0, 0⟩
    ssdp := ⟨0⟩
    discoverables := load_device_support limit pkgs mk
    limit_discovery := limit
    is_discovering := false }

/-- `NetworkDiscovery.scan`, with the outcome of the foreground round-trip as
a parameter: when not `is_discovering`, start mdns and set the flag; then
invoke `ssdp.scan()`, which either returns (no error) or raises — the
mutations made before the raise persist, as they do on the Python object. -/
def NetworkDiscovery.scanWith (nd : NetworkDiscovery) (ssdpOk : Bool) :
    NetworkDiscovery × Option PyError :=
  let nd1 :=
    if nd.is_discovering then nd
    else { nd with mdns := nd.mdns.start, is_discovering := true }
  let nd2 := { nd1 with ssdp := nd1.ssdp.scan }
  (nd2, if ssdpOk then none else some .ssdpTransportError)

/-- `NetworkDiscovery.scan` on the normal (non-raising) path. -/
def NetworkDiscovery.scan (nd : NetworkDiscovery) : NetworkDiscovery :=
  (nd.scanWith true).1

/-- `NetworkDiscovery.stop`: no-op unless `is_discovering`; else stop mdns and
clear the flag. -/
def NetworkDiscovery.stop (nd : NetworkDiscovery) : NetworkDiscovery :=
  if ¬ nd.is_discovering then nd
  else { nd with mdns := nd.mdns.stop, is_discovering := false }

/-- `NetworkDiscovery._check_enabled`: raises
`RuntimeError("NetworkDiscovery is disabled")` when not `is_discovering`. -/
def NetworkDiscovery.check_enabled (nd : NetworkDiscovery) : Except PyError Unit :=
  if ¬ nd.is_discovering then .error (.runtimeError "NetworkDiscovery is disabled")
  else .ok ()

/-- `NetworkDiscovery.discover`: after `_check_enabled`, the list comprehension
`[dis for dis, checker in self.discoverables.items() if checker.is_discovered()]`. -/
def NetworkDiscovery.discover (nd : NetworkDiscovery) : Except PyError (List String) := do
  let _ ← nd.check_enabled
  pure ((nd.discoverables.filter (fun p => p.2.is_discovered)).map Prod.fst)

/-- `NetworkDiscovery.get_info`: the dict lookup `self.discoverables[dis]`
(raising `KeyError` on a missing key) followed by delegation to the checker.
No state check is performed. -/
def NetworkDiscovery.get_info (nd : NetworkDiscovery) (dis : String) :
    Except PyError (List String) :=
  match nd.discoverables.find? (fun p => p.1 == dis) with
  | some p => .ok p.2.get_info
  | none => .error (.keyError dis)

/-- `NetworkDiscovery.get_entries`: like `get_info`, delegating to
`get_entries()` of the found checker. No state check is performed. -/
def NetworkDiscovery.get_entries (nd : NetworkDiscovery) (dis : String) :
    Except PyError (List String) :=
  match nd.discoverables.find? (fun p => p.1 == dis) with
  | some p => .ok p.2.get_entries
  | none => .error (.keyError dis)

/-- Iterated `scan()` on the normal path: `scanN nd n` is `nd` after `n`
consecutive `scan()` calls with no intervening `stop()`. -/
def scanN (nd : NetworkDiscovery) : Nat → NetworkDiscovery
  | 0 => nd
  | n + 1 => (scanN nd n).scan

/-- A lifecycle operation of the coordinator (queries are read-only and do not
appear: they return values, not a new state). -/
inductive Op where
  | scanOk
  | scanFail
  | stopOp
  deriving DecidableEq, Repr

/-- Apply one lifecycle operation to the coordinator state. -/
def applyOp (nd : NetworkDiscovery) : Op → NetworkDiscovery
  | .scanOk => nd.scan
  | .scanFail => (nd.scanWith false).1
  | .stopOp => nd.stop

/-- Run a sequence of lifecycle operations. -/
def runOps (nd : NetworkDiscovery) : List Op → NetworkDiscovery
  | [] => nd
  | o :: os => runOps (applyOp nd o) os

/-! Concrete sample plugins and coordinators used by witnesses and
counterexamples. -/

/-- Sample checker for type `A`: currently discovered. -/
def checkerA : Checker :=
  { is_discovered := true, get_info := ["infoA"], get_entries := ["entryA"] }

/-- Sample checker for type `B`: currently not discovered. -/
def checkerB : Checker :=
  { is_discovered := false, get_info := ["infoB"], get_entries := ["entryB"] }

/-- Sample plugin factory: builds `checkerA` for package
`netdisco.discoverables.A` and `checkerB` otherwise. -/
def mkSample (pkg : String) : Checker :=
  if pkg == "netdisco.discoverables.A" then checkerA else checkerB

/-- The two sample candidate packages the walk yields. -/
def pkgsAB : List String :=
  ["netdisco.discoverables.A", "netdisco.discoverables.B"]

/-- A freshly constructed sample coordinator (state `Idle`). -/
def sampleIdle : NetworkDiscovery :=
  NetworkDiscovery.init none pkgsAB mkSample

/-- The sample coordinator after one `scan()` (state `Scanning`). -/
def sampleScanning : NetworkDiscovery :=
  sampleIdle.scan

example : sampleIdle.discoverables = [("A", checkerA), ("B", checkerB)] := by decide
example : sampleIdle.is_discovering = false := by decide
example : sampleScanning.is_discovering = true := by decide
example : sampleScanning.discoverables = [("A", checkerA), ("B", checkerB)] := by decide
example : sampleScanning.mdns.startCount = 1 := by decide
example : sampleScanning.scan.mdns.startCount = 1 := by decide
example : sampleScanning.scan.ssdp.scanCount = 2 := by decide
example : sampleScanning.stop.is_discovering = false := by decide
example : sampleScanning.stop.mdns.stopCount = 1 := by decide
example : sampleScanning.discover = .ok ["A"] := by rfl
example : sampleIdle.discover = .error (.runtimeError "NetworkDiscovery is disabled") := by
  rfl
example : sampleIdle.get_info "A" = .ok ["infoA"] := by rfl
example : sampleIdle.get_info "C" = .error (.keyError "C") := by rfl
example : load_device_support (some ["A"]) pkgsAB mkSample = [] := by decide
example :
    (load_device_support (some ["netdisco.discoverables.A"]) pkgsAB mkSample).map Prod.fst
      = ["A"] := by decide

/-! Helper lemmas about the lifecycle operations. -/

theorem scanWith_fst (nd : NetworkDiscovery) (ok : Bool) :
    (nd.scanWith ok).1 = nd.scan := rfl

theorem scanWith_snd (nd : NetworkDiscovery) (ok : Bool) :
    (nd.scanWith ok).2 = if ok then none else some PyError.ssdpTransportError := rfl

theorem scan_is_discovering (nd : NetworkDiscovery) : nd.scan.is_discovering = true := by
  unfold NetworkDiscovery.scan NetworkDiscovery.scanWith
  cases h : nd.is_discovering <;> simp [h]

theorem scan_discoverables (nd : NetworkDiscovery) :
    nd.scan.discoverables = nd.discoverables := by
  unfold NetworkDiscovery.scan NetworkDiscovery.scanWith
  cases h : nd.is_discovering <;> simp [h]

theorem scan_ssdp (nd : NetworkDiscovery) : nd.scan.ssdp = nd.ssdp.scan := by
  unfold NetworkDiscovery.scan NetworkDiscovery.scanWith
  cases h : nd.is_discovering <;> simp [h]

theorem scan_mdns_of_idle (nd : NetworkDiscovery) (h : nd.is_discovering = false) :
    nd.scan.mdns = nd.mdns.start := by
  simp [NetworkDiscovery.scan, NetworkDiscovery.scanWith, h]

theorem scan_mdns_of_scanning (nd : NetworkDiscovery) (h : nd.is_discovering = true) :
    nd.scan.mdns = nd.mdns := by
  simp [NetworkDiscovery.scan, NetworkDiscovery.scanWith, h]

theorem scan_mdns_stopCount (nd : NetworkDiscovery) :
    nd.scan.mdns.stopCount = nd.mdns.stopCount := by
  cases h : nd.is_discovering
  · rw [scan_mdns_of_idle nd h]; rfl
  · rw [scan_mdns_of_scanning nd h]

theorem stop_of_idle (nd : NetworkDiscovery) (h : nd.is_discovering = false) :
    nd.stop = nd := by
  simp [NetworkDiscovery.stop, h]

theorem stop_is_discovering (nd : NetworkDiscovery) : nd.stop.is_discovering = false := by
  unfold NetworkDiscovery.stop
  cases h : nd.is_discovering <;> simp [h]

theorem stop_mdns_of_scanning (nd : NetworkDiscovery) (h : nd.is_discovering = true) :
    nd.stop.mdns = nd.mdns.stop := by
  simp [NetworkDiscovery.stop, h]

theorem stop_discoverables (nd : NetworkDiscovery) :
    nd.stop.discoverables = nd.discoverables := by
  unfold NetworkDiscovery.stop
  cases h : nd.is_discovering <;> simp [h]

theorem stop_ssdp (nd : NetworkDiscovery) : nd.stop.ssdp = nd.ssdp := by
  unfold NetworkDiscovery.stop
  cases h : nd.is_discovering <;> simp [h]

theorem stop_mdns_startCount (nd : NetworkDiscovery) :
    nd.stop.mdns.startCount = nd.mdns.startCount := by
  unfold NetworkDiscovery.stop
  cases h : nd.is_discovering <;> simp [h, MDNS.stop]

theorem discover_of_scanning (nd : NetworkDiscovery) (h : nd.is_discovering = true) :
    nd.discover
      = .ok ((nd.discoverables.filter (fun p => p.2.is_discovered)).map Prod.fst) := by
  simp [NetworkDiscovery.discover, NetworkDiscovery.check_enabled, h]

theorem discover_of_idle (nd : NetworkDiscovery) (h : nd.is_discovering = false) :
    nd.discover = .error (.runtimeError "NetworkDiscovery is disabled") := by
  simp [NetworkDiscovery.discover, NetworkDiscovery.check_enabled, h]

theorem init_is_discovering (limit : Option (List String)) (pkgs : List String)
    (mk : String → Checker) :
    (NetworkDiscovery.init limit pkgs mk).is_discovering = false := rfl

/-! Lemmas about iterated scanning (for the counting-stub claims). -/

theorem scanN_is_discovering (nd : NetworkDiscovery) (n : Nat) (hn : 1 ≤ n) :
    (scanN nd n).is_discovering = true := by
  match n, hn with
  | n + 1, _ => exact scan_is_discovering (scanN nd n)

theorem scanN_ssdp_scanCount (nd : NetworkDiscovery) (n : Nat) :
    (scanN nd n).ssdp.scanCount = nd.ssdp.scanCount + n := by
  induction n with
  | zero => rfl
  | succ k ih =>
    show ((scanN nd k).scan).ssdp.scanCount = _
    rw [scan_ssdp, SSDP.scan]
    simp [ih]
    omega

theorem scanN_mdns_startCount (nd : NetworkDiscovery) (h : nd.is_discovering = false)
    (n : Nat) (hn : 1 ≤ n) :
    (scanN nd n).mdns.startCount = nd.mdns.startCount + 1 := by
  induction n with
  | zero => omega
  | succ k ih =>
    show ((scanN nd k).scan).mdns.startCount = _
    cases k with
    | zero =>
      show (nd.scan).mdns.startCount = _
      rw [scan_mdns_of_idle nd h]; rfl
    | succ j =>
      rw [scan_mdns_of_scanning _ (scanN_is_discovering nd (j + 1) (Nat.succ_le_succ (Nat.zero_le j)))]
      exact ih (Nat.succ_le_succ (Nat.zero_le j))

theorem scanN_mdns_stopCount (nd : NetworkDiscovery) (n : Nat) :
    (scanN nd n).mdns.stopCount = nd.mdns.stopCount := by
  induction n with
  | zero => rfl
  | succ k ih =>
    show ((scanN nd k).scan).mdns.stopCount = _
    rw [scan_mdns_stopCount, ih]

/-! Claim theorems. -/

/-- Claim C1: for every coordinator, `discover()` while `Idle` (freshly
constructed, or after `stop()` following `scan()`) fails with the
`RuntimeError("NetworkDiscovery is disabled")` raised by `_check_enabled`,
and `discover()` succeeds (returns a list) exactly when the state is
`Scanning`. -/
theorem discover_requires_scanning (nd : NetworkDiscovery) :
    (nd.is_discovering = false →
        nd.discover = .error (.runtimeError "NetworkDiscovery is disabled"))
  ∧ ((∃ l, nd.discover = .ok l) ↔ nd.is_discovering = true)
  ∧ (∀ limit pkgs mk, (NetworkDiscovery.init limit pkgs mk).discover
        = .error (.runtimeError "NetworkDiscovery is disabled"))
  ∧ (nd.is_discovering = false →
        nd.scan.stop.discover = .error (.runtimeError "NetworkDiscovery is disabled")) := by
  refine ⟨discover_of_idle nd, ⟨?_, ?_⟩, ?_, ?_⟩
  · rintro ⟨l, hl⟩
    cases h : nd.is_discovering
    · rw [discover_of_idle nd h] at hl; exact absurd hl (by simp)
    · rfl
  · intro h
    exact ⟨_, discover_of_scanning nd h⟩
  · intro limit pkgs mk
    exact discover_of_idle _ (init_is_discovering limit pkgs mk)
  · intro _
    exact discover_of_idle _ (stop_is_discovering nd.scan)

/-- Witness for C1 at concrete coordinators. -/
theorem discover_requires_scanning_witness :
    sampleIdle.discover = .error (.runtimeError "NetworkDiscovery is disabled")
  ∧ (∃ l, sampleScanning.discover = .ok l)
  ∧ sampleScanning.stop.discover = .error (.runtimeError "NetworkDiscovery is disabled") :=
  ⟨(discover_requires_scanning sampleIdle).1 rfl,
   (discover_requires_scanning sampleScanning).2.1.mpr rfl,
   (discover_requires_scanning sampleIdle).2.2.2 rfl⟩

/-- Claim C3: starting from `Idle`, across `N ≥ 1` consecutive `scan()` calls
with no intervening `stop()`, the background adapter's `start()` is invoked
exactly once, the foreground adapter's `scan()` is invoked once per call
(`N` times), and after each call the state is `Scanning`. -/
theorem scan_starts_background_once (nd : NetworkDiscovery)
    (h : nd.is_discovering = false) (N : Nat) (hN : 1 ≤ N) :
    (scanN nd N).mdns.startCount = nd.mdns.startCount + 1
  ∧ (scanN nd N).ssdp.scanCount = nd.ssdp.scanCount + N
  ∧ ∀ k, 1 ≤ k → k ≤ N → (scanN nd k).is_discovering = true :=
  ⟨scanN_mdns_startCount nd h N hN,
   scanN_ssdp_scanCount nd N,
   fun k hk _ => scanN_is_discovering nd k hk⟩

/-- Witness for C3: three consecutive scans on the sample coordinator. -/
theorem scan_starts_background_once_witness :
    (scanN sampleIdle 3).mdns.startCount = sampleIdle.mdns.startCount + 1
  ∧ (scanN sampleIdle 3).ssdp.scanCount = sampleIdle.ssdp.scanCount + 3
  ∧ ∀ k, 1 ≤ k → k ≤ 3 → (scanN sampleIdle k).is_discovering = true :=
  scan_starts_background_once sampleIdle rfl 3 (by decide)

/-- Claim C4: `stop()` while `Idle` is a no-op (the state is returned
unchanged, so the background adapter's `stop()` is not invoked); `stop()`
while `Scanning` invokes the background adapter's `stop()` exactly once and
transitions to `Idle`; a second consecutive `stop()` is again a no-op. -/
theorem stop_lifecycle (nd : NetworkDiscovery) :
    (nd.is_discovering = false → nd.stop = nd)
  ∧ (nd.is_discovering = true →
        nd.stop.mdns.stopCount = nd.mdns.stopCount + 1
      ∧ nd.stop.mdns.startCount = nd.mdns.startCount
      ∧ nd.stop.is_discovering = false
      ∧ nd.stop.stop = nd.stop) := by
  refine ⟨stop_of_idle nd, fun h => ⟨?_, stop_mdns_startCount nd, stop_is_discovering nd, ?_⟩⟩
  · rw [stop_mdns_of_scanning nd h]; rfl
  · exact stop_of_idle _ (stop_is_discovering nd)

/-- Witness for C4 at concrete coordinators. -/
theorem stop_lifecycle_witness :
    sampleScanning.stop.mdns.stopCount = sampleScanning.mdns.stopCount + 1
  ∧ sampleScanning.stop.is_discovering = false
  ∧ sampleScanning.stop.stop = sampleScanning.stop
  ∧ sampleIdle.stop = sampleIdle :=
  ⟨((stop_lifecycle sampleScanning).2 rfl).1,
   ((stop_lifecycle sampleScanning).2 rfl).2.2.1,
   ((stop_lifecycle sampleScanning).2 rfl).2.2.2,
   (stop_lifecycle sampleIdle).1 rfl⟩

/-- Claim C10: starting from `Idle`, the sequence `scan(); stop(); scan()`
invokes the background adapter's `start()` on both scans (once per
Idle-to-Scanning transition, two invocations total) and leaves the
coordinator `Scanning`. -/
theorem scan_stop_scan_restarts (nd : NetworkDiscovery)
    (h : nd.is_discovering = false) :
    nd.scan.mdns.startCount = nd.mdns.startCount + 1
  ∧ nd.scan.stop.scan.mdns.startCount = nd.mdns.startCount + 2
  ∧ nd.scan.stop.scan.is_discovering = true := by
  refine ⟨?_, ?_, scan_is_discovering _⟩
  · rw [scan_mdns_of_idle nd h]; rfl
  · rw [scan_mdns_of_idle _ (stop_is_discovering nd.scan)]
    show nd.scan.stop.mdns.startCount + 1 = _
    rw [stop_mdns_startCount, scan_mdns_of_idle nd h]; rfl

/-- Witness for C10 on the sample coordinator. -/
theorem scan_stop_scan_restarts_witness :
    sampleIdle.scan.mdns.startCount = sampleIdle.mdns.startCount + 1
  ∧ sampleIdle.scan.stop.scan.mdns.startCount = sampleIdle.mdns.startCount + 2
  ∧ sampleIdle.scan.stop.scan.is_discovering = true :=
  scan_stop_scan_restarts sampleIdle rfl

/-- Counterexample to claim C2 as stated: on a freshly constructed (`Idle`)
coordinator, `get_info`/`get_entries` of a registered name succeed by
delegating to the checker — no `InvalidState` (`RuntimeError`) is signalled,
because neither operation calls `_check_enabled`. -/
theorem get_info_idle_succeeds :
    sampleIdle.is_discovering = false
  ∧ sampleIdle.get_info "A" = .ok ["infoA"]
  ∧ sampleIdle.get_entries "A" = .ok ["entryA"] :=
  ⟨rfl, rfl, rfl⟩

/-- Claim C2 (amended): `get_info` and `get_entries` perform no state check:
on an `Idle` coordinator a registered name's query delegates to its checker
and succeeds, and neither operation ever signals the `InvalidState`
`RuntimeError`; only `discover` calls `_check_enabled`. -/
theorem get_ops_no_state_check (nd : NetworkDiscovery) (dis : String)
    (h : nd.is_discovering = false) :
    (∀ pr, nd.discoverables.find? (fun p => p.1 == dis) = some pr →
        nd.get_info dis = .ok pr.2.get_info
      ∧ nd.get_entries dis = .ok pr.2.get_entries)
  ∧ (∀ msg, nd.get_info dis ≠ .error (.runtimeError msg)
      ∧ nd.get_entries dis ≠ .error (.runtimeError msg)) := by
  refine ⟨fun pr hpr => ⟨?_, ?_⟩, fun msg => ⟨?_, ?_⟩⟩
  · simp [NetworkDiscovery.get_info, hpr]
  · simp [NetworkDiscovery.get_entries, hpr]
  · unfold NetworkDiscovery.get_info
    cases hf : nd.discoverables.find? (fun p => p.1 == dis) <;> simp
  · unfold NetworkDiscovery.get_entries
    cases hf : nd.discoverables.find? (fun p => p.1 == dis) <;> simp

/-- Witness for the amended C2 on the sample Idle coordinator. -/
theorem get_ops_no_state_check_witness :
    sampleIdle.get_info "A" = .ok checkerA.get_info
  ∧ sampleIdle.get_entries "A" = .ok checkerA.get_entries :=
  (get_ops_no_state_check sampleIdle "A" rfl).1 ("A", checkerA) rfl

/-- Counterexample to claim C6 as stated: a failing foreground scan on an
`Idle` coordinator propagates the error, but the coordinator's state after
the call is `Scanning`, not the `Idle` state it had before the call (the
flag is set before `ssdp.scan()` is invoked). -/
theorem scan_failure_changes_idle_state :
    sampleIdle.is_discovering = false
  ∧ (sampleIdle.scanWith false).2 = some .ssdpTransportError
  ∧ (sampleIdle.scanWith false).1.is_discovering = true :=
  ⟨rfl, rfl, rfl⟩

/-- Claim C6 (amended): a foreground-scan error always propagates to the
`scan()` caller unswallowed; when the coordinator was already `Scanning` its
state (including the background adapter) is unchanged, but when it was
`Idle` the failed call has already started the background adapter and left
the state `Scanning`. -/
theorem scan_failure_propagates (nd : NetworkDiscovery) :
    (nd.scanWith false).2 = some .ssdpTransportError
  ∧ (nd.is_discovering = true →
        (nd.scanWith false).1.is_discovering = true
      ∧ (nd.scanWith false).1.mdns = nd.mdns)
  ∧ (nd.is_discovering = false →
        (nd.scanWith false).1.is_discovering = true
      ∧ (nd.scanWith false).1.mdns.startCount = nd.mdns.startCount + 1) := by
  refine ⟨rfl, fun h => ⟨?_, ?_⟩, fun h => ⟨?_, ?_⟩⟩
  · rw [scanWith_fst]; exact scan_is_discovering nd
  · rw [scanWith_fst]; exact scan_mdns_of_scanning nd h
  · rw [scanWith_fst]; exact scan_is_discovering nd
  · rw [scanWith_fst, scan_mdns_of_idle nd h]; rfl

/-- Witness for the amended C6 at concrete coordinators in both states. -/
theorem scan_failure_propagates_witness :
    (sampleScanning.scanWith false).2 = some .ssdpTransportError
  ∧ (sampleScanning.scanWith false).1.mdns = sampleScanning.mdns
  ∧ (sampleIdle.scanWith false).1.mdns.startCount = sampleIdle.mdns.startCount + 1 :=
  ⟨(scan_failure_propagates sampleScanning).1,
   ((scan_failure_propagates sampleScanning).2.1 rfl).2,
   ((scan_failure_propagates sampleIdle).2.2 rfl).2⟩

/-- Claim C7: while `Scanning`, `discover()` returns exactly the names whose
checker currently reports `is_discovered`, and the returned list follows the
registry's iteration order (it is a sublist of the registry's key list). -/
theorem discover_returns_discovered (nd : NetworkDiscovery)
    (h : nd.is_discovering = true) :
    nd.discover = .ok ((nd.discoverables.filter (fun p => p.2.is_discovered)).map Prod.fst)
  ∧ ∀ l, nd.discover = .ok l →
      ((∀ n, n ∈ l ↔ ∃ c, (n, c) ∈ nd.discoverables ∧ c.is_discovered = true)
       ∧ l.Sublist (nd.discoverables.map Prod.fst)) := by
  refine ⟨discover_of_scanning nd h, ?_⟩
  intro l hl
  rw [discover_of_scanning nd h] at hl
  injection hl with hl
  subst hl
  constructor
  · intro n
    constructor
    · intro hn
      rcases List.mem_map.mp hn with ⟨⟨a, c⟩, hac, rfl⟩
      rcases List.mem_filter.mp hac with ⟨hmem, hdisc⟩
      exact ⟨c, hmem, by simpa using hdisc⟩
    · rintro ⟨c, hmem, hdisc⟩
      exact List.mem_map.mpr ⟨(n, c), List.mem_filter.mpr ⟨hmem, by simpa using hdisc⟩, rfl⟩
  · exact (List.filter_sublist _).map Prod.fst

/-- Witness for C7 on the sample Scanning coordinator: only type `A` is
currently discovered. -/
theorem discover_returns_discovered_witness :
    sampleScanning.discover
      = .ok ((sampleScanning.discoverables.filter (fun p => p.2.is_discovered)).map Prod.fst)
  ∧ sampleScanning.discover = .ok ["A"] :=
  ⟨(discover_returns_discovered sampleScanning rfl).1, by rfl⟩

/-- Claim C8: in every state, a name absent from the registry makes
`get_info`/`get_entries` fail with `KeyError` (the `UnknownType` condition);
a registered name delegates to that name's checker; and the results never
depend on `is_discovering`. -/
theorem get_ops_unknown_type (nd : NetworkDiscovery) (dis : String) :
    (dis ∉ nd.discoverables.map Prod.fst →
        nd.get_info dis = .error (.keyError dis)
      ∧ nd.get_entries dis = .error (.keyError dis))
  ∧ (∀ pr, nd.discoverables.find? (fun p => p.1 == dis) = some pr →
        nd.get_info dis = .ok pr.2.get_info
      ∧ nd.get_entries dis = .ok pr.2.get_entries)
  ∧ (∀ b, ({ nd with is_discovering := b } : NetworkDiscovery).get_info dis
        = nd.get_info dis
      ∧ ({ nd with is_discovering := b } : NetworkDiscovery).get_entries dis
        = nd.get_entries dis) := by
  refine ⟨fun habs => ?_, fun pr hf => ⟨?_, ?_⟩, fun b => ⟨rfl, rfl⟩⟩
  · have hf : nd.discoverables.find? (fun p => p.1 == dis) = none := by
      rw [List.find?_eq_none]
      intro x hx
      simp only [beq_iff_eq]
      intro hx1
      exact habs (List.mem_map.mpr ⟨x, hx, hx1⟩)
    exact ⟨by simp [NetworkDiscovery.get_info, hf], by simp [NetworkDiscovery.get_entries, hf]⟩
  · simp [NetworkDiscovery.get_info, hf]
  · simp [NetworkDiscovery.get_entries, hf]

/-- Witness for C8: an unregistered name fails with `KeyError` in both
states; a registered name delegates. -/
theorem get_ops_unknown_type_witness :
    sampleIdle.get_info "C" = .error (.keyError "C")
  ∧ sampleScanning.get_entries "C" = .error (.keyError "C")
  ∧ sampleIdle.get_entries "B" = .ok checkerB.get_entries :=
  ⟨((get_ops_unknown_type sampleIdle "C").1 (by decide)).1,
   ((get_ops_unknown_type sampleScanning "C").1 (by decide)).2,
   ((get_ops_unknown_type sampleIdle "B").2.1 ("B", checkerB) rfl).2⟩

/-! Lemmas about the registry loader's limit filter. -/

theorem loadStep_some_of_contains (l : List String) (mk : String → Checker)
    (d : List (String × Checker)) (pkg : String) (h : l.contains pkg = true) :
    loadStep (some l) mk d pkg = loadStep none mk d pkg := by
  have hm : pkg ∈ l := by simpa using h
  simp [loadStep, hm]

theorem loadStep_some_of_not_contains (l : List String) (mk : String → Checker)
    (d : List (String × Checker)) (pkg : String) (h : l.contains pkg = false) :
    loadStep (some l) mk d pkg = d := by
  have hm : pkg ∉ l := by simpa using h
  simp [loadStep, hm]

theorem load_foldl_filter (l : List String) (mk : String → Checker) :
    ∀ (pkgs : List String) (d : List (String × Checker)),
      pkgs.foldl (loadStep (some l) mk) d
        = (pkgs.filter (fun p => l.contains p)).foldl (loadStep none mk) d := by
  intro pkgs
  induction pkgs with
  | nil => intro d; rfl
  | cons pkg rest ih =>
    intro d
    cases h : l.contains pkg
    · have hm : pkg ∉ l := by simpa using h
      rw [List.foldl_cons, loadStep_some_of_not_contains l mk d pkg h]
      have hf : (pkg :: rest).filter (fun p => l.contains p)
          = rest.filter (fun p => l.contains p) := by
        simp [List.filter_cons, hm]
      rw [hf]
      exact ih d
    · have hm : pkg ∈ l := by simpa using h
      rw [List.foldl_cons, loadStep_some_of_contains l mk d pkg h]
      have hf : (pkg :: rest).filter (fun p => l.contains p)
          = pkg :: rest.filter (fun p => l.contains p) := by
        simp [List.filter_cons, hm]
      rw [hf, List.foldl_cons]
      exact ih (loadStep none mk d pkg)

/-! Lemmas for registry immutability over lifecycle operations. -/

theorem applyOp_discoverables (nd : NetworkDiscovery) (o : Op) :
    (applyOp nd o).discoverables = nd.discoverables := by
  cases o
  · exact scan_discoverables nd
  · show ((nd.scanWith false).1).discoverables = nd.discoverables
    rw [scanWith_fst]
    exact scan_discoverables nd
  · exact stop_discoverables nd

theorem runOps_discoverables (ops : List Op) :
    ∀ nd : NetworkDiscovery, (runOps nd ops).discoverables = nd.discoverables := by
  induction ops with
  | nil => intro nd; rfl
  | cons o os ih =>
    intro nd
    show (runOps (applyOp nd o) os).discoverables = nd.discoverables
    rw [ih (applyOp nd o), applyOp_discoverables]

/-- Counterexample to claim C5 as stated: with candidate plugins
`netdisco.discoverables.A` and `netdisco.discoverables.B` (registry keys `A`
and `B`), a limit set holding the bare type name `A` matches no candidate —
the loader tests the full package name, not the derived key, against the
limit set — so the resulting registry is empty rather than exactly `{A}`. -/
theorem limit_bare_name_yields_empty :
    (load_device_support none pkgsAB mkSample).map Prod.fst = ["A", "B"]
  ∧ load_device_support (some ["A"]) pkgsAB mkSample = [] :=
  ⟨rfl, rfl⟩

/-- Claim C5 (amended): the limit set is matched against the full candidate
package name, not the derived registry key: loading with limit set `l`
keeps exactly the candidates whose full package name is in `l` (it equals
an unlimited load of the candidates filtered by that membership); with
limit `{netdisco.discoverables.A}` and candidates
`netdisco.discoverables.{A, B}`, the registry keys are exactly `[A]`. -/
theorem limit_filters_by_package (l pkgs : List String) (mk : String → Checker) :
    load_device_support (some l) pkgs mk
      = load_device_support none (pkgs.filter (fun p => l.contains p)) mk
  ∧ (load_device_support (some ["netdisco.discoverables.A"]) pkgsAB mkSample).map Prod.fst
      = ["A"] :=
  ⟨load_foldl_filter l mk pkgs [], rfl⟩

/-- Claim C9: the registry is fully populated at construction, while the
coordinator is still `Idle`, and no sequence of lifecycle operations
(scans, failing scans, stops) adds or removes an entry: the discoverables
mapping after any operation sequence equals the one built at construction.
(The query operations are embedded as pure functions of the state, so they
cannot touch the registry at all.) -/
theorem registry_immutable (limit : Option (List String)) (pkgs : List String)
    (mk : String → Checker) (ops : List Op) :
    (NetworkDiscovery.init limit pkgs mk).is_discovering = false
  ∧ (NetworkDiscovery.init limit pkgs mk).discoverables = load_device_support limit pkgs mk
  ∧ (runOps (NetworkDiscovery.init limit pkgs mk) ops).discoverables
      = load_device_support limit pkgs mk :=
  ⟨rfl, rfl, runOps_discoverables ops _⟩

end Netdisco
